import Mathlib

/-!
Shallow embedding of the stocknewstui core (src/model.rs, src/app.rs, src/feed.rs)
and verification of its specification claims.

Modelling conventions:
* `std::time::Instant` is modelled as a `Nat` timestamp; functions that call
  `Instant::now()` internally take the current time as an explicit parameter.
* Machine integers (`u32`, `u64`, `usize`, `i64`) are modelled as `Nat`/`Int`;
  no operation in the modelled code can overflow (`2u64.pow(min(n,6)) ≤ 64`,
  counters are only incremented).
* `HashSet<&str>` word sets are modelled as deduplicated `List String`
  (`List.dedup`); only their element counts and membership are ever used, so
  this is exact.
* `HashMap<String, String>` (the content cache) is modelled as an association
  list queried with `List.lookup`; keys are unique in the map, so this is exact.
* The `f64` Jaccard comparison `(intersection / union) >= 0.7` is modelled as
  the exact rational comparison `7 * union ≤ 10 * intersection`.  This agrees
  with the IEEE-754 computation for every realizable word-set size: `i/u`
  differs from the double nearest to `0.7` by at least `1/(10*u)`, far above
  the rounding error, unless `i/u = 7/10` exactly, in which case both the
  division result and the literal `0.7` round to the identical double and the
  comparison succeeds on both sides.
* Rust `to_lowercase`/`to_uppercase`/`char::is_alphanumeric` are modelled with
  Lean's `Char.toLower`/`Char.toUpper`/`Char.isAlphanum`; the titles and
  queries exercised here are ASCII, where the two agree.
* The HTML document handed to the extraction code (parsed by the external
  `scraper` crate) is abstracted as a `Doc` record holding, per content
  selector, the concatenated trimmed text of its matches, the trimmed text of
  every `<p>` element, and the two meta-description attributes.
-/

namespace StockNews

/-! ## String utilities (Rust `str` operations on `List Char`) -/

/-- Split a character list into maximal whitespace-free words, mirroring Rust
`str::split_whitespace` (empty fragments are skipped).  The accumulator holds
the current word reversed. -/
def wordsAux : List Char → List Char → List String
  | [], cur => if cur.isEmpty then [] else [String.mk cur.reverse]
  | c :: rest, cur =>
    if c.isWhitespace then
      if cur.isEmpty then wordsAux rest [] else String.mk cur.reverse :: wordsAux rest []
    else wordsAux rest (c :: cur)

def wordsOf (s : String) : List String := wordsAux s.data []

def strToLower (s : String) : String := String.mk (s.data.map Char.toLower)

def strToUpper (s : String) : String := String.mk (s.data.map Char.toUpper)

/-- Rust `str::trim` (leading and trailing whitespace removed). -/
def strTrim (s : String) : String :=
  String.mk (((s.data.dropWhile Char.isWhitespace).reverse.dropWhile Char.isWhitespace).reverse)

/-- Rust `str::starts_with`. -/
def strStartsWith (s pre : String) : Bool := pre.data.isPrefixOf s.data

/-- `needle` occurs as a contiguous substring of `hay` (Rust `str::contains`). -/
def listContainsSub (needle : List Char) : List Char → Bool
  | [] => needle.isEmpty
  | c :: rest => needle.isPrefixOf (c :: rest) || listContainsSub needle rest

def strContainsSub (hay needle : String) : Bool := listContainsSub needle.data hay.data

/-- Rust `str::lines`: split on `'\n'`; a trailing newline does not produce a
final empty line.  (Trailing `'\r'` stripping is omitted: every consumer trims
each line before use.)  The accumulator holds the current line reversed. -/
def splitLinesAux : List Char → List Char → List String
  | [], cur => [String.mk cur.reverse]
  | c :: rest, cur =>
    if c = '\n' then String.mk cur.reverse :: splitLinesAux rest []
    else splitLinesAux rest (c :: cur)

def linesOf (s : String) : List String :=
  if s.data.isEmpty then []
  else
    let segs := splitLinesAux s.data []
    if s.data.getLast? = some '\n' then segs.dropLast else segs

/-! ## model.rs -/

inductive Sentiment where
  | Positive
  | Negative
  | Neutral
deriving DecidableEq, Repr

structure Article where
  id : Int
  title : String
  source : String
  url : String
  tickers : List String
  published_at : Int
  fetched_at : Int
  read : Bool
  bookmarked : Bool
  sentiment : Sentiment
deriving DecidableEq, Repr

instance : Inhabited Article :=
  ⟨⟨0, "", "", "", [], 0, 0, false, false, Sentiment.Neutral⟩⟩

structure FeedSource where
  name : String
  url : String
  enabled : Bool
deriving DecidableEq, Repr

inductive ViewMode where
  | Feed
  | Reader
  | Bookmarks
  | Sources
deriving DecidableEq, Repr

inductive FilterMode where
  | All
  | Watchlist
  | Source
  | Unread
deriving DecidableEq, Repr

/-- The stop-word set of `normalize_title` (`model.rs`). -/
def stop_words : List String :=
  ["dan", "di", "ke", "dari", "yang", "untuk", "dengan", "ini", "itu",
   "the", "a", "an", "in", "on", "of", "to", "and", "for", "is", "at"]

/-- `model.rs::normalize_title`: lowercase, replace non-alphanumeric
non-space characters by spaces, split on whitespace, drop stop words and
single-character tokens, rejoin with single spaces. -/
def normalize_title (title : String) : String :=
  let lower := strToLower title
  let cleaned := String.mk (lower.data.map fun c => if c.isAlphanum || c = ' ' then c else ' ')
  String.intercalate " "
    ((wordsOf cleaned).filter fun w => !stop_words.contains w && 1 < w.length)

/-- The distinct words of a normalized title (the `HashSet<&str>` built from
`split_whitespace` in both `title_similarity` and `recompute_display`). -/
def wordSetOf (normalized : String) : List String := (wordsOf normalized).dedup

/-- `HashSet::intersection(..).count()` for deduplicated lists. -/
def interCard (a b : List String) : Nat := (a.filter (b.contains ·)).length

/-- `HashSet::union(..).count()` for deduplicated lists. -/
def unionCard (a b : List String) : Nat := (a ++ b.filter (fun x => !a.contains x)).length

/-- `model.rs::title_similarity`: Jaccard index of the two normalized word
sets, `0` if either set is empty.  The `f64` result is modelled as `ℚ`. -/
def title_similarity (a b : String) : ℚ :=
  if (wordSetOf (normalize_title a)).isEmpty || (wordSetOf (normalize_title b)).isEmpty then 0
  else
    (interCard (wordSetOf (normalize_title a)) (wordSetOf (normalize_title b)) : ℚ) /
      (unionCard (wordSetOf (normalize_title a)) (wordSetOf (normalize_title b)) : ℚ)

/-! ## app.rs: rate limiter / backoff tracker -/

structure SourceFetchState where
  last_fetch : Option Nat
  consecutive_failures : Nat
  backoff_until : Option Nat
deriving DecidableEq, Repr

def SourceFetchState.new : SourceFetchState := ⟨none, 0, none⟩

/-- The first guard of `can_fetch`: `Instant::now() < backoff_until`. -/
def withinBackoff (s : SourceFetchState) (now : Nat) : Bool :=
  match s.backoff_until with
  | some u => decide (now < u)
  | none => false

/-- `SourceFetchState::can_fetch` with `Instant::now()` passed explicitly:
false while inside the backoff window, otherwise eligible once at least
`min_interval` has elapsed since the last recorded fetch (always eligible with
no recorded fetch). -/
def can_fetch (s : SourceFetchState) (now min_interval : Nat) : Bool :=
  if withinBackoff s now then false
  else
    match s.last_fetch with
    | some last => decide (min_interval ≤ now - last)
    | none => true

/-- `SourceFetchState::record_success`. -/
def record_success (s : SourceFetchState) (now : Nat) : SourceFetchState :=
  { s with last_fetch := some now, consecutive_failures := 0, backoff_until := none }

/-- `SourceFetchState::record_failure`: increment the consecutive-failure
count `n`, set `backoff_until = now + 60 * 2 ^ min n 6`, and record the
attempt time. -/
def record_failure (s : SourceFetchState) (now : Nat) : SourceFetchState :=
  let n := s.consecutive_failures + 1
  { s with
      consecutive_failures := n,
      backoff_until := some (now + 60 * 2 ^ (min n 6)),
      last_fetch := some now }

/-! ## app.rs: application state and display projection -/

structure DisplayRow where
  article_idx : Nat
  dup_count : Nat
  other_sources : List String
deriving DecidableEq, Repr

inductive SourceInputField where
  | Name
  | Url
deriving DecidableEq, Repr

inductive InputMode where
  | Normal
  | Search
  | SourceAdd (f : SourceInputField)
  | SourceEdit (f : SourceInputField)
  | SourceDelete
deriving DecidableEq, Repr

/-- The fields of `App` read or written by the operations under
verification (`recompute_display`, `confirm_add_source`, `set_status`).
Purely presentational fields (theme, scroll offsets, spinner tick, …) are
omitted: no verified operation touches them. -/
structure App where
  articles : List Article
  selected_index : Nat
  input_mode : InputMode
  filter_mode : FilterMode
  sources : List FeedSource
  watchlist : List String
  search_query : String
  content_cache : List (String × String)
  ticker_filter : Option String
  source_edit_name : String
  source_edit_url : String
  cached_display : List DisplayRow
  display_dirty : Bool
  status_message : Option (String × Nat)
deriving Repr

/-- `App::new` restricted to the modelled fields. -/
def App.new (watchlist : List String) (sources : List FeedSource) : App where
  articles := []
  selected_index := 0
  input_mode := InputMode.Normal
  filter_mode := FilterMode.All
  sources := sources
  watchlist := watchlist
  search_query := ""
  content_cache := []
  ticker_filter := none
  source_edit_name := ""
  source_edit_url := ""
  cached_display := []
  display_dirty := true
  status_message := none

/-- First filter stage of `recompute_display` (filter mode). -/
def passesFilterMode (a : App) (art : Article) : Bool :=
  match a.filter_mode with
  | FilterMode.All | FilterMode.Source => true
  | FilterMode.Watchlist =>
    if a.watchlist.isEmpty then true
    else
      art.tickers.any (fun t => a.watchlist.contains t) ||
        a.watchlist.any (fun w => strContainsSub (strToUpper art.title) w)
  | FilterMode.Unread => !art.read

/-- Second filter stage of `recompute_display` (optional ticker filter). -/
def passesTickerFilter (a : App) (art : Article) : Bool :=
  match a.ticker_filter with
  | some ticker =>
    art.tickers.any (fun t => t == ticker) || strContainsSub (strToUpper art.title) ticker
  | none => true

/-- Third filter stage of `recompute_display` (search query over title,
tickers, and cached body content). -/
def passesSearch (a : App) (art : Article) : Bool :=
  let search_lower := strToLower a.search_query
  if !a.search_query.isEmpty then
    strContainsSub (strToLower art.title) search_lower ||
      art.tickers.any (fun t => strContainsSub (strToLower t) search_lower) ||
      ((a.content_cache.lookup art.url).map
        (fun c => strContainsSub (strToLower c) search_lower)).getD false
  else true

/-- Step 1 of `recompute_display`: the indices `0..articles.len()` surviving
the three filter stages, in order. -/
def filteredIndices (a : App) : List Nat :=
  (((a.articles.enum.filter fun p => passesFilterMode a p.2).filter fun p =>
        passesTickerFilter a p.2).filter fun p => passesSearch a p.2).map Prod.fst

def articleAt (arts : List Article) (i : Nat) : Article := arts.getD i default

/-- One not-yet-consumed entry of the dedup scan: filtered-article index,
its normalized word set, and its source name. -/
structure DedupEntry where
  idx : Nat
  words : List String
  src : String
deriving DecidableEq, Repr

/-- The similarity test of the dedup loop:
`!word_sets[i].is_empty() && !word_sets[j].is_empty()` and
`union > 0.0 && (intersection / union) >= 0.7`, the latter modelled exactly
as `7 * union ≤ 10 * intersection` (see the header). -/
def simMatch (wi wj : List String) : Bool :=
  !wi.isEmpty && !wj.isEmpty &&
    (decide (0 < unionCard wi wj) && decide (7 * unionCard wi wj ≤ 10 * interCard wi wj))

/-- The greedy consumed-array dedup loop of `recompute_display`, phrased
recursively: the head entry becomes a representative, every later
still-unconsumed entry similar to it is folded into its row (in scan order),
and the loop continues on the unconsumed remainder.  The `fuel` argument (the
initial list length suffices, see `greedyClusterAux_fuel`) only makes the
recursion structural. -/
def greedyClusterAux : Nat → List DedupEntry → List DisplayRow
  | 0, _ => []
  | _, [] => []
  | fuel + 1, e :: rest =>
    let matched := rest.filter fun f => simMatch e.words f.words
    let remaining := rest.filter fun f => !simMatch e.words f.words
    ⟨e.idx, matched.length, matched.map (·.src)⟩ :: greedyClusterAux fuel remaining

def greedyCluster (entries : List DedupEntry) : List DisplayRow :=
  greedyClusterAux entries.length entries

/-- Step 2 of `recompute_display`: the fast path for at most one filtered
article, otherwise the greedy dedup over the pre-computed normalized word
sets. -/
def displayRowsOf (a : App) : List DisplayRow :=
  let filtered := filteredIndices a
  if filtered.length ≤ 1 then
    filtered.map fun idx => ⟨idx, 0, []⟩
  else
    let normalized := filtered.map fun idx => normalize_title (articleAt a.articles idx).title
    let word_sets := normalized.map fun n => wordSetOf n
    greedyCluster ((filtered.zip word_sets).map fun p =>
      ⟨p.1, p.2, (articleAt a.articles p.1).source⟩)

/-- `App::recompute_display`: rebuild `cached_display`, clamp
`selected_index` into the new bounds, clear the dirty flag. -/
def recomputeDisplay (a : App) : App :=
  let rows := displayRowsOf a
  let sel :=
    if rows.isEmpty then 0
    else if rows.length ≤ a.selected_index then rows.length - 1
    else a.selected_index
  { a with cached_display := rows, selected_index := sel, display_dirty := false }

/-- `App::set_status` with `Instant::now()` passed explicitly. -/
def set_status (a : App) (msg : String) (now : Nat) : App :=
  { a with status_message := some (msg, now) }

/-- `App::confirm_add_source`: append an enabled source and set a status
message when both pending fields are non-empty; always return to
`InputMode::Normal`. -/
def confirm_add_source (a : App) (now : Nat) : App :=
  let a1 :=
    if !a.source_edit_name.isEmpty && !a.source_edit_url.isEmpty then
      set_status
        { a with sources := a.sources ++ [⟨a.source_edit_name, a.source_edit_url, true⟩] }
        ("Added source: " ++ a.source_edit_name) now
    else a
  { a1 with input_mode := InputMode.Normal }

/-! ## feed.rs: content retrieval pipeline -/

/-- Abstraction of a parsed HTML document as seen by `extract_article_text`
and `extract_meta_description`: `selector_texts` holds, for each entry of the
content-selector list in order, the `"\n"`-joined trimmed non-empty text of
its matches; `paragraphs` holds the trimmed text of each `<p>` element;
`og_description` / `meta_description` hold the `content` attributes of the
two meta tags when present and non-missing. -/
structure Doc where
  selector_texts : List String
  paragraphs : List String
  og_description : Option String
  meta_description : Option String
deriving DecidableEq, Repr

/-- `feed.rs::clean_article_text` inner pass: collapse runs of blank lines to
a single blank line, trimming every line. -/
def cleanLinesAux : List String → Bool → List String
  | [], _ => []
  | line :: rest, prevEmpty =>
    let trimmed := strTrim line
    if trimmed.isEmpty then
      if !prevEmpty then "" :: cleanLinesAux rest true else cleanLinesAux rest true
    else trimmed :: cleanLinesAux rest false

def dropTrailingEmpties (l : List String) : List String :=
  (l.reverse.dropWhile (·.isEmpty)).reverse

/-- `feed.rs::clean_article_text`. -/
def clean_article_text (text : String) : String :=
  String.intercalate "\n" (dropTrailingEmpties (cleanLinesAux (linesOf text) false))

/-- `feed.rs::extract_article_text`: first content selector whose combined
text exceeds 100 characters, else all paragraphs longer than 20 characters,
else the sentinel message. -/
def extract_article_text (d : Doc) : String :=
  match d.selector_texts.find? (fun combined => 100 < combined.length) with
  | some combined => clean_article_text combined
  | none =>
    let paragraphs := d.paragraphs.filter fun t => 20 < t.length
    if !paragraphs.isEmpty then clean_article_text (String.intercalate "\n\n" paragraphs)
    else "Could not extract article content. Press [o] to open in browser."

/-- `feed.rs::extract_meta_description`: `og:description` first, then the
generic `description` meta tag; a present tag whose trimmed content is empty
falls through to the next candidate. -/
def extract_meta_description (d : Doc) : Option String :=
  let fromMeta :=
    match d.meta_description with
    | some content =>
      let trimmed := strTrim content
      if !trimmed.isEmpty then some trimmed else none
    | none => none
  match d.og_description with
  | some content =>
    let trimmed := strTrim content
    if !trimmed.isEmpty then some trimmed else fromMeta
  | none => fromMeta

/-- Outcome of one HTTP attempt in `fetch_article_content`: transport error,
response whose body could not be read as text, or a parsed document. -/
inductive AttemptOutcome where
  | transportErr (msg : String)
  | textErr
  | ok (d : Doc)
deriving DecidableEq, Repr

/-- The user-agent retry loop of `feed.rs::fetch_article_content`, one
`AttemptOutcome` per identity in `USER_AGENTS` (three entries); the inter-
attempt delay has no effect on the returned value and is omitted.  On a
parsed document: return the extracted text unless it is the sentinel, else
return a meta description longer than 50 characters, else record
`"Content extraction failed"` and move to the next identity; a transport
error records `"Attempt i: e"`.  When the identities are exhausted the last
recorded error is returned as the failure. -/
def fetchContentLoop : Nat → List AttemptOutcome → String → Except String String
  | _, [], last_err => Except.error last_err
  | attempt, o :: rest, last_err =>
    match o with
    | AttemptOutcome.ok d =>
      let content := extract_article_text d
      if !strStartsWith content "Could not extract" then Except.ok content
      else
        match extract_meta_description d with
        | some desc =>
          if 50 < desc.length then Except.ok desc
          else fetchContentLoop (attempt + 1) rest "Content extraction failed"
        | none => fetchContentLoop (attempt + 1) rest "Content extraction failed"
    | AttemptOutcome.textErr => fetchContentLoop (attempt + 1) rest last_err
    | AttemptOutcome.transportErr e =>
      fetchContentLoop (attempt + 1) rest ("Attempt " ++ toString (attempt + 1) ++ ": " ++ e)

/-- `feed.rs::fetch_article_content` as a function of the per-identity
attempt outcomes. -/
def fetch_article_content (attempts : List AttemptOutcome) : Except String String :=
  fetchContentLoop 0 attempts ""

/-! ## Concrete instances used by the claim theorems -/

/-- An `App` fresh from `App::new` holding exactly two articles. -/
def pairApp (a1 a2 : Article) : App := { App.new [] [] with articles := [a1, a2] }

def tA : String := "alpha bravo charlie delta echo foxtrot golf"

def tB : String := "alpha bravo charlie delta echo foxtrot golf hotel india juliet"

def tC : String := "alpha bravo charlie delta echo foxtrot golf kilo lima mike"

def artA : Article := ⟨0, tA, "SrcA", "ua", [], 0, 0, false, false, Sentiment.Neutral⟩

def artB : Article := ⟨0, tB, "SrcB", "ub", [], 0, 0, false, false, Sentiment.Neutral⟩

def artC : Article := ⟨0, tC, "SrcC", "uc", [], 0, 0, false, false, Sentiment.Neutral⟩

/-- Three titles sharing a 7-word core: `tB` and `tC` each have Jaccard
similarity exactly `7/10` with `tA`, but only `7/13` with each other. -/
def tripleApp : App := { App.new [] [] with articles := [artA, artB, artC] }

def bbcaTitle1 : String := "Saham BBCA Naik 5 Persen"

def bbcaTitle2 : String := "Saham BBCA Melonjak 5%"

def bbcaArt1 : Article :=
  ⟨0, bbcaTitle1, "Bisnis.com", "u1", ["BBCA"], 0, 0, false, false, Sentiment.Positive⟩

def bbcaArt2 : Article :=
  ⟨0, bbcaTitle2, "Kontan", "u2", ["BBCA"], 0, 0, false, false, Sentiment.Positive⟩

/-- The spec scenario: the two BBCA titles from different sources. -/
def bbcaApp : App := { App.new [] [] with articles := [bbcaArt1, bbcaArt2] }

/-- A document with no selector match, no paragraphs and no meta
descriptions (e.g. a page consisting of a lone `<title>` tag). -/
def emptyDoc : Doc := ⟨[], [], none, none⟩

/-- A watchlist article used by the watchlist-filter witness. -/
def wlArt : Article :=
  ⟨0, "IHSG Menguat", "Kontan", "uw", ["BBCA"], 0, 0, false, false, Sentiment.Positive⟩

def wlAppEmpty : App := { App.new [] [] with articles := [wlArt] }

def wlAppBBCA : App := { App.new ["BBCA"] [] with articles := [wlArt] }

/-- Pending add-source form with an empty name. -/
def addAppNoName : App :=
  { App.new [] [] with
      source_edit_url := "https://example.com/rss",
      input_mode := InputMode.SourceAdd SourceInputField.Url }

/-- Pending add-source form with both fields filled. -/
def addAppFull : App :=
  { App.new [] [] with
      source_edit_name := "Example",
      source_edit_url := "https://example.com/rss",
      input_mode := InputMode.SourceAdd SourceInputField.Url }

/-! ## Helper lemmas -/

theorem unionCard_pos (w1 w2 : List String) (h : w1 ≠ []) : 0 < unionCard w1 w2 := by
  unfold unionCard
  rw [List.length_append]
  exact Nat.lt_of_lt_of_le (List.length_pos.mpr h) (Nat.le_add_right _ _)

/-- For non-empty word sets the dedup-loop similarity test is exactly the
threshold comparison (the `union > 0` guard is always met). -/
theorem simMatch_true_iff (w1 w2 : List String) (h1 : w1 ≠ []) (h2 : w2 ≠ []) :
    simMatch w1 w2 = true ↔ 7 * unionCard w1 w2 ≤ 10 * interCard w1 w2 := by
  simp [simMatch, List.isEmpty_iff, h1, h2, unionCard_pos w1 w2 h1]

/-- For non-empty word sets, `title_similarity ≥ 0.7` is the same threshold
comparison used inside the dedup loop. -/
theorem title_similarity_ge_iff (t1 t2 : String)
    (h1 : wordSetOf (normalize_title t1) ≠ []) (h2 : wordSetOf (normalize_title t2) ≠ []) :
    (7/10 ≤ title_similarity t1 t2) ↔
      7 * unionCard (wordSetOf (normalize_title t1)) (wordSetOf (normalize_title t2)) ≤
        10 * interCard (wordSetOf (normalize_title t1)) (wordSetOf (normalize_title t2)) := by
  unfold title_similarity
  rw [if_neg (by simp [List.isEmpty_iff, h1, h2])]
  have hu : 0 < unionCard (wordSetOf (normalize_title t1)) (wordSetOf (normalize_title t2)) :=
    unionCard_pos _ _ h1
  rw [div_le_div_iff₀ (by norm_num) (by exact_mod_cast hu)]
  rw [mul_comm ((interCard (wordSetOf (normalize_title t1))
    (wordSetOf (normalize_title t2)) : ℚ)) 10]
  exact_mod_cast Iff.rfl

theorem tripleSim_inter : interCard (wordSetOf (normalize_title tB))
    (wordSetOf (normalize_title tC)) = 7 := by decide

theorem tripleSim_union : unionCard (wordSetOf (normalize_title tB))
    (wordSetOf (normalize_title tC)) = 13 := by decide

/-- The similarity of the two non-representative titles of `tripleApp`. -/
theorem tripleSim_value : title_similarity tB tC = 7 / 13 := by
  unfold title_similarity
  rw [if_neg (by decide), tripleSim_inter, tripleSim_union]
  norm_num

theorem bbcaSim_inter : interCard (wordSetOf (normalize_title bbcaTitle1))
    (wordSetOf (normalize_title bbcaTitle2)) = 2 := by decide

theorem bbcaSim_union : unionCard (wordSetOf (normalize_title bbcaTitle1))
    (wordSetOf (normalize_title bbcaTitle2)) = 5 := by decide

/-- The similarity of the two BBCA scenario titles. -/
theorem bbcaSim_value : title_similarity bbcaTitle1 bbcaTitle2 = 2 / 5 := by
  unfold title_similarity
  rw [if_neg (by decide), bbcaSim_inter, bbcaSim_union]
  norm_num

/-- Folding `record_failure` adds one consecutive failure per call. -/
theorem foldl_record_failure_count (ts : List Nat) (s : SourceFetchState) :
    (ts.foldl record_failure s).consecutive_failures = s.consecutive_failures + ts.length := by
  induction ts generalizing s with
  | nil => simp
  | cons t rest ih =>
    simp [List.foldl_cons, ih, record_failure]
    omega

/-- Every row emitted by the greedy dedup loop counts exactly its
other-source list. -/
theorem greedyClusterAux_all (fuel : Nat) (l : List DedupEntry) :
    (greedyClusterAux fuel l).all (fun r => r.dup_count == r.other_sources.length) = true := by
  induction fuel generalizing l with
  | zero => simp [greedyClusterAux]
  | succ n ih =>
    cases l with
    | nil => simp [greedyClusterAux]
    | cons e rest => simp [greedyClusterAux, ih]

/-! ## Claim theorems -/

/-- Claim C1, counterexample.  In `tripleApp` the titles `tB` and `tC` have
Jaccard similarity `7/13 < 0.7`, yet the greedy dedup pass of
`recompute_display` folds both into the cluster of `tA` (each is `0.7`-similar
to `tA`), producing a single `DisplayRow`.  So two titles with similarity
below the threshold can end up in the same cluster, refuting the claim's
"different clusters" direction for sequences of three titles. -/
theorem dedup_subthreshold_same_cluster_cex :
    (recomputeDisplay tripleApp).cached_display = [⟨0, 2, ["SrcB", "SrcC"]⟩]
    ∧ title_similarity tB tC < 7 / 10 := by
  refine ⟨by decide, ?_⟩
  rw [tripleSim_value]
  norm_num

/-- Claim C1, amended: for a two-title input whose normalized token sets are
both non-empty, the dedup pass of `recompute_display` puts the two titles in
the same cluster (a single `DisplayRow`) iff their Jaccard similarity is at
least `0.7`, the boundary being inclusive. -/
theorem dedup_pair_threshold (a1 a2 : Article)
    (h1 : wordSetOf (normalize_title a1.title) ≠ [])
    (h2 : wordSetOf (normalize_title a2.title) ≠ []) :
    ((recomputeDisplay (pairApp a1 a2)).cached_display.length = 1 ↔
      7/10 ≤ title_similarity a1.title a2.title) := by
  have key : (recomputeDisplay (pairApp a1 a2)).cached_display
      = greedyCluster [⟨0, wordSetOf (normalize_title a1.title), a1.source⟩,
                       ⟨1, wordSetOf (normalize_title a2.title), a2.source⟩] := rfl
  rw [key, title_similarity_ge_iff a1.title a2.title h1 h2,
    ← simMatch_true_iff _ _ h1 h2]
  cases hm : simMatch (wordSetOf (normalize_title a1.title))
      (wordSetOf (normalize_title a2.title)) with
  | true => simp [greedyCluster, greedyClusterAux, hm]
  | false => simp [greedyCluster, greedyClusterAux, hm]

/-- Claim C1, witness: `tA` and `tB` have similarity exactly `7/10`, their
token sets are non-empty, and the amended theorem applies (the pair is indeed
grouped, showing the boundary inclusive). -/
theorem dedup_pair_threshold_witness :
    wordSetOf (normalize_title artA.title) ≠ [] ∧
    wordSetOf (normalize_title artB.title) ≠ [] ∧
    ((recomputeDisplay (pairApp artA artB)).cached_display.length = 1 ↔
      7/10 ≤ title_similarity artA.title artB.title) :=
  ⟨by decide, by decide, dedup_pair_threshold artA artB (by decide) (by decide)⟩

/-- Claim C2, counterexample.  For a document with no selector match, no
paragraph over 20 characters and no meta description, `extract_article_text`
does produce the sentinel string, but `fetch_article_content` — the content
retrieval pipeline — returns it as the failure
`Err "Content extraction failed"`, not as a successful sentinel result,
refuting the claim. -/
theorem fetch_content_no_sentinel_ok_cex :
    extract_article_text emptyDoc =
      "Could not extract article content. Press [o] to open in browser."
    ∧ fetch_article_content
        [AttemptOutcome.ok emptyDoc, AttemptOutcome.ok emptyDoc, AttemptOutcome.ok emptyDoc] =
      Except.error "Content extraction failed" :=
  ⟨by decide, rfl⟩

/-- Claim C2, amended: for every successfully retrieved document matching no
content selector (no combined selector text over 100 characters), with no
paragraph longer than 20 characters and no usable meta description (none
longer than 50 characters), the extraction layer `extract_article_text`
returns the sentinel "could not extract" message, but `fetch_article_content`
converts it into the error result `Err "Content extraction failed"` after
exhausting all three client identities; the pipeline reports an
extraction-only failure as a failure, not as a successful sentinel. -/
theorem fetch_content_extraction_error (d : Doc)
    (h1 : ∀ c ∈ d.selector_texts, c.length ≤ 100)
    (h2 : ∀ p ∈ d.paragraphs, p.length ≤ 20)
    (h3 : ∀ desc, extract_meta_description d = some desc → desc.length ≤ 50) :
    extract_article_text d =
      "Could not extract article content. Press [o] to open in browser."
    ∧ fetch_article_content
        [AttemptOutcome.ok d, AttemptOutcome.ok d, AttemptOutcome.ok d] =
      Except.error "Content extraction failed" := by
  have hfind : d.selector_texts.find? (fun combined => 100 < combined.length) = none := by
    rw [List.find?_eq_none]
    intro c hc
    simpa using h1 c hc
  have hpar : d.paragraphs.filter (fun t => 20 < t.length) = [] := by
    rw [List.filter_eq_nil_iff]
    intro p hp
    simpa using h2 p hp
  have hext : extract_article_text d =
      "Could not extract article content. Press [o] to open in browser." := by
    unfold extract_article_text
    rw [hfind]
    simp [hpar]
  refine ⟨hext, ?_⟩
  have hsw : strStartsWith
      "Could not extract article content. Press [o] to open in browser."
      "Could not extract" = true := by decide
  have hstep : ∀ rest last_err attempt,
      fetchContentLoop attempt (AttemptOutcome.ok d :: rest) last_err =
        fetchContentLoop (attempt + 1) rest "Content extraction failed" := by
    intro rest last_err attempt
    simp only [fetchContentLoop, hext, hsw, Bool.not_true, Bool.false_eq_true, if_false]
    cases hmeta : extract_meta_description d with
    | none => rfl
    | some desc =>
      have hd : ¬ (50 < desc.length) := by
        have := h3 desc hmeta
        omega
      simp [hd]
  unfold fetch_article_content
  rw [hstep, hstep, hstep]
  rfl

/-- Claim C2, witness: the amended theorem applied to the document with no
extractable content at all. -/
theorem fetch_content_extraction_error_witness :
    extract_article_text emptyDoc =
      "Could not extract article content. Press [o] to open in browser."
    ∧ fetch_article_content
        [AttemptOutcome.ok emptyDoc, AttemptOutcome.ok emptyDoc, AttemptOutcome.ok emptyDoc] =
      Except.error "Content extraction failed" :=
  fetch_content_extraction_error emptyDoc (by simp [emptyDoc]) (by simp [emptyDoc])
    (fun desc h => by
      rw [show extract_meta_description emptyDoc = none from rfl] at h
      exact Option.noConfusion h)

/-- Claim C3, counterexample.  Immediately after `record_success` (elapsed
time zero) `can_fetch` is `false` at the default 60-second minimum interval,
because zero elapsed time is below `min_interval`; the claim asserts it is
true. -/
theorem can_fetch_after_success_cex :
    can_fetch (record_success SourceFetchState.new 0) 0 60 = false := by decide

/-- Claim C3, amended: `can_fetch` is false immediately after
`record_failure` and remains false until `backoff_until` elapses; after
`record_success` at time `t`, `can_fetch` at time `now` equals the test
`min_interval ≤ now - t`, i.e. it is false until `min_interval` elapses and
true from then on (true immediately only when `min_interval` is zero). -/
theorem fetch_state_gate (s : SourceFetchState) (t now minI : Nat) :
    (now < t + 60 * 2 ^ (min (s.consecutive_failures + 1) 6) →
      can_fetch (record_failure s t) now minI = false)
    ∧ can_fetch (record_success s t) now minI = decide (minI ≤ now - t) := by
  constructor
  · intro h
    simp [can_fetch, withinBackoff, record_failure, h]
  · simp [can_fetch, withinBackoff, record_success]

/-- Claim C3, witness: a fresh state failed at time 0 is ineligible at time
50 (inside the 120-second backoff), and a fresh state succeeding at time 0 is
eligible again at time 100 with the default 60-second interval. -/
theorem fetch_state_gate_witness :
    can_fetch (record_failure SourceFetchState.new 0) 50 60 = false
    ∧ can_fetch (record_success SourceFetchState.new 0) 100 60 = true := by
  refine ⟨(fetch_state_gate SourceFetchState.new 0 50 60).1 (by decide), ?_⟩
  have h := (fetch_state_gate SourceFetchState.new 0 100 60).2
  simpa using h

/-- Claim C4, counterexample.  The titles "Saham BBCA Naik 5 Persen" and
"Saham BBCA Melonjak 5%" normalize to the token sets
{saham, bbca, naik, persen} and {saham, bbca, melonjak} (the digit "5" is a
single-character token and is dropped), giving Jaccard similarity
`2/5 = 0.4 < 0.7`; `recompute_display` therefore produces two rows, not the
single grouped `DisplayRow` with `dup_count` 1 the claim asserts. -/
theorem bbca_not_grouped_cex :
    (recomputeDisplay bbcaApp).cached_display.length = 2
    ∧ title_similarity bbcaTitle1 bbcaTitle2 = 2 / 5 := by
  refine ⟨by decide, bbcaSim_value⟩

/-- Claim C4, amended: the two titles have normalized token overlap
`2/5 = 0.4`, which is below the `0.7` threshold, so `recompute_display`
keeps them as two separate `DisplayRow`s in input order, each with
`dup_count` 0 and an empty `other_sources` list. -/
theorem bbca_two_rows :
    (recomputeDisplay bbcaApp).cached_display = [⟨0, 0, []⟩, ⟨1, 0, []⟩]
    ∧ title_similarity bbcaTitle1 bbcaTitle2 < 7 / 10 := by
  refine ⟨by decide, ?_⟩
  rw [bbcaSim_value]
  norm_num

/-- Claim C5: starting from a state with no consecutive failures, the n-th
consecutive `record_failure` (here `n = ts.length + 1`, the last call made at
time `t`) sets `backoff_until` to `t + 60 * 2 ^ min n 6` seconds: 120s after
failure 1, 240s after failure 2, …, capped at 3840s from failure 6 on. -/
theorem record_failure_backoff_seq (s : SourceFetchState) (ts : List Nat) (t : Nat)
    (h : s.consecutive_failures = 0) :
    ((ts ++ [t]).foldl record_failure s).backoff_until
      = some (t + 60 * 2 ^ (min (ts.length + 1) 6)) := by
  rw [List.foldl_append]
  simp [record_failure, foldl_record_failure_count, h]

/-- Claim C5, witness: the first failure at time 5 backs off until
`5 + 120 = 125`; the seventh consecutive failure is capped at 3840 seconds. -/
theorem record_failure_backoff_seq_witness :
    ((([] : List Nat) ++ [5]).foldl record_failure SourceFetchState.new).backoff_until
      = some 125
    ∧ (([0, 0, 0, 0, 0, 0] ++ [0]).foldl record_failure SourceFetchState.new).backoff_until
      = some 3840 := by
  constructor
  · have h := record_failure_backoff_seq SourceFetchState.new [] 5 rfl
    simpa using h
  · have h := record_failure_backoff_seq SourceFetchState.new [0, 0, 0, 0, 0, 0] 0 rfl
    simpa using h

/-- Claim C6: with filter mode `Watchlist` and an empty watchlist the
filtered index sequence of `recompute_display` is exactly that of mode `All`;
with a non-empty watchlist an article passes the mode filter iff some
extracted ticker equals a watchlist entry or the uppercased title contains
some watchlist entry as a substring. -/
theorem watchlist_filter_spec (a : App) :
    (a.watchlist = [] →
      filteredIndices { a with filter_mode := FilterMode.Watchlist } =
        filteredIndices { a with filter_mode := FilterMode.All })
    ∧ (a.watchlist ≠ [] → ∀ art : Article,
        passesFilterMode { a with filter_mode := FilterMode.Watchlist } art = true ↔
          ((∃ t ∈ art.tickers, t ∈ a.watchlist) ∨
            ∃ w ∈ a.watchlist, strContainsSub (strToUpper art.title) w = true)) := by
  constructor
  · intro h
    unfold filteredIndices
    rw [show (({ a with filter_mode := FilterMode.Watchlist } : App).articles.enum.filter
        fun p => passesFilterMode { a with filter_mode := FilterMode.Watchlist } p.2)
        = (({ a with filter_mode := FilterMode.Watchlist } : App).articles.enum.filter
        fun p => passesFilterMode { a with filter_mode := FilterMode.All } p.2) from
      List.filter_congr fun p _ => by simp [passesFilterMode, h]]
    rfl
  · intro h art
    simp [passesFilterMode, List.isEmpty_iff, h, List.any_eq_true]

/-- Claim C6, witness: with an empty watchlist the Watchlist and All
projections of `wlAppEmpty` coincide, and with watchlist `["BBCA"]` the
article `wlArt` (ticker `BBCA`) passes the Watchlist mode filter. -/
theorem watchlist_filter_spec_witness :
    filteredIndices { wlAppEmpty with filter_mode := FilterMode.Watchlist } =
      filteredIndices { wlAppEmpty with filter_mode := FilterMode.All }
    ∧ passesFilterMode { wlAppBBCA with filter_mode := FilterMode.Watchlist } wlArt = true :=
  ⟨(watchlist_filter_spec wlAppEmpty).1 rfl,
   ((watchlist_filter_spec wlAppBBCA).2 (by decide) wlArt).mpr
     (Or.inl ⟨"BBCA", by decide, by decide⟩)⟩

/-- Claim C7: after `recompute_display` the selection index is clamped into
the new projection's bounds: 0 when the projection is empty, otherwise the
minimum of the previous index and the projection length minus one. -/
theorem recompute_selected_clamped (a : App) :
    (recomputeDisplay a).selected_index =
      if (recomputeDisplay a).cached_display.isEmpty then 0
      else min a.selected_index ((recomputeDisplay a).cached_display.length - 1) := by
  have hc : (recomputeDisplay a).cached_display = displayRowsOf a := rfl
  have hs : (recomputeDisplay a).selected_index =
      (if (displayRowsOf a).isEmpty then 0
       else if (displayRowsOf a).length ≤ a.selected_index then (displayRowsOf a).length - 1
       else a.selected_index) := rfl
  rw [hc, hs]
  by_cases hE : (displayRowsOf a).isEmpty
  · simp [hE]
  · have hlen : 0 < (displayRowsOf a).length := by
      cases hl : displayRowsOf a with
      | nil => simp [hl] at hE
      | cons x xs => simp [hl]
    simp only [hE, if_false]
    by_cases hL : (displayRowsOf a).length ≤ a.selected_index
    · simp [hL]
      omega
    · simp [hL]
      omega

/-- Claim C8: `recompute_display` is idempotent — it rebuilds
`cached_display` purely from the articles, filter mode, watchlist, ticker
filter, search query, and content cache, none of which it modifies, so a
second immediate run produces an identical `DisplayRow` sequence. -/
theorem recompute_display_idempotent (a : App) :
    (recomputeDisplay (recomputeDisplay a)).cached_display
      = (recomputeDisplay a).cached_display := rfl

/-- Claim C9: every `DisplayRow` produced by `recompute_display` satisfies
`dup_count = other_sources.length`, on the single-or-empty fast path (0 and
`[]`) as well as out of the greedy dedup loop. -/
theorem display_dup_count_invariant (a : App) :
    ((recomputeDisplay a).cached_display).all
      (fun r => r.dup_count == r.other_sources.length) = true := by
  have hc : (recomputeDisplay a).cached_display = displayRowsOf a := rfl
  rw [hc]
  unfold displayRowsOf
  by_cases h : (filteredIndices a).length ≤ 1
  · simp [h, List.all_eq_true]
  · simp [h, greedyCluster, greedyClusterAux_all]

/-- Claim C10: when the pending source name or URL is empty,
`confirm_add_source` leaves the source list and status message unchanged
while still resetting the input mode to `Normal`; when both are non-empty it
appends exactly one enabled source with that name and URL (and sets a status
message). -/
theorem confirm_add_source_spec (a : App) (now : Nat) :
    ((a.source_edit_name.isEmpty || a.source_edit_url.isEmpty) = true →
      (confirm_add_source a now).sources = a.sources ∧
      (confirm_add_source a now).status_message = a.status_message ∧
      (confirm_add_source a now).input_mode = InputMode.Normal)
    ∧ (a.source_edit_name.isEmpty = false → a.source_edit_url.isEmpty = false →
      (confirm_add_source a now).sources =
        a.sources ++ [⟨a.source_edit_name, a.source_edit_url, true⟩] ∧
      (confirm_add_source a now).status_message =
        some ("Added source: " ++ a.source_edit_name, now) ∧
      (confirm_add_source a now).input_mode = InputMode.Normal) := by
  constructor
  · intro h
    rcases Bool.or_eq_true_iff.mp h with h1 | h1 <;>
      simp [confirm_add_source, set_status, h1]
  · intro h1 h2
    simp [confirm_add_source, set_status, h1, h2]

/-- Claim C10, witness: a form with an empty name leaves the sources and
status untouched and returns to `Normal`; a fully filled form appends the one
enabled source. -/
theorem confirm_add_source_spec_witness :
    ((confirm_add_source addAppNoName 0).sources = addAppNoName.sources ∧
      (confirm_add_source addAppNoName 0).status_message = addAppNoName.status_message ∧
      (confirm_add_source addAppNoName 0).input_mode = InputMode.Normal)
    ∧ ((confirm_add_source addAppFull 0).sources =
        addAppFull.sources ++ [⟨addAppFull.source_edit_name, addAppFull.source_edit_url, true⟩] ∧
      (confirm_add_source addAppFull 0).status_message =
        some ("Added source: " ++ addAppFull.source_edit_name, 0) ∧
      (confirm_add_source addAppFull 0).input_mode = InputMode.Normal) :=
  ⟨(confirm_add_source_spec addAppNoName 0).1 (by decide),
   (confirm_add_source_spec addAppFull 0).2 (by decide) (by decide)⟩

end StockNews
